import Mathlib

/-!
Shallow embedding of the epam-forms CRUD backend.

The embedding covers the two core files:
* the resource controller (class UserController), and
* the data-access layer (class UserModel in src/models/user.model.js).

External collaborators imported by the controller (helpers/constants.js,
helpers/utils.js, models/auth.model.js, config/db.config.js) are repository
files that are not available here; they are modelled from the specification,
each such definition carries a doc comment beginning with
Modelled from the spec.

Collaborator behaviour (rows returned, affected-row counts, thrown errors) is
an oracle parameter; each controller method returns the list of responses it
emits through the response-emission collaborator together with the list of
data-access calls it issues, so that frame properties (what was written) and
response properties are both visible.
-/

/-- A JavaScript value appearing in a request body field. -/
inductive JsVal where
  | str (s : String)
  | num (n : Nat)
  | undefinedVal
  deriving DecidableEq

/-- Rendering of a value inside a template literal, as in the SQL-building code. -/
def JsVal.render : JsVal → String
  | .str s => s
  | .num n => toString n
  | .undefinedVal => "undefined"

/-- A request body: an ordered list of field-name and value pairs (a JS object). -/
abbrev Body := List (String × JsVal)

/-- Reading a property of a JS object: the first entry with the given key. -/
def getField (body : Body) (key : String) : Option JsVal :=
  (body.find? (fun p => p.1 == key)).map (fun p => p.2)

/-- Property assignment obj.key = v on a JS object: replaces the value in
place when the key exists, appends the pair otherwise. -/
def setField (body : Body) (key : String) (v : JsVal) : Body :=
  if body.any (fun p => p.1 == key) then
    body.map (fun p => if p.1 == key then (key, v) else p)
  else
    body ++ [(key, v)]

/-- A row of the blogs table. -/
structure Blog where
  id : Nat
  title : String
  description : String
  userId : Nat
  deriving DecidableEq

/-- A row of the users table, as far as this core reads it. -/
structure User where
  id : Nat
  username : String
  deriving DecidableEq

/-- An error thrown by a collaborator: the optional status, message and
response properties read by the catch branches, plus a raw rendering used as
the fallback diagnostic detail. -/
structure JsError where
  status : Option Nat
  message : Option String
  response : Option String
  raw : String
  deriving DecidableEq

/-- JavaScript a || b on an optional number (undefined and 0 are falsy). -/
def jsOrNat : Option Nat → Nat → Nat
  | some v, d => if v = 0 then d else v
  | none, d => d

/-- JavaScript a || b on an optional string (undefined and the empty string are falsy). -/
def jsOrStr : Option String → String → String
  | some s, d => if s = "" then d else s
  | none, d => d

/-- The diagnostic detail attached in every catch branch: error.response || error. -/
def JsError.detail (e : JsError) : String :=
  jsOrStr e.response e.raw

/-- Modelled from the spec: STATUS_CODES from helpers/constants.js is not
available; the spec names OK, CREATED, BAD_REQUEST, UNAUTHORIZED and
INTERNAL_SERVER_ERROR, given their standard HTTP values here. -/
def STATUS_CODES.OK : Nat := 200

def STATUS_CODES.SUCCESSFULLY_CREATED : Nat := 201

def STATUS_CODES.BAD_REQUEST : Nat := 400

def STATUS_CODES.UNAUTHORIZED : Nat := 401

def STATUS_CODES.INTERNAL_SERVER_ERROR : Nat := 500

/-- Modelled from the spec: blogCreationRequiredFields from
helpers/constants.js is not available; the spec requires title and
description present in the creation body. -/
def blogCreationRequiredFields : List String := ["title", "description"]

/-- Modelled from the spec: possibleBlogUpdateFields from
helpers/constants.js is not available; the blog fields the spec documents as
updatable are title and description. -/
def possibleBlogUpdateFields : List String := ["title", "description"]

/-- Modelled from the spec: userUpdateFields from helpers/constants.js is not
available; the only user field this core exposes for update is username. -/
def userUpdateFields : List String := ["username"]

/-- Modelled from the spec: the field-presence validator
isAvailable(body, requiredFieldNames, allRequired) from helpers/utils.js is
not available; it reports whether all of the named fields (or, when
allRequired is false, at least one of them) are present in the body. -/
def isAvailable (body : Body) (fields : List String) (allRequired : Bool) : Bool :=
  if allRequired then fields.all (fun f => (getField body f).isSome)
  else fields.any (fun f => (getField body f).isSome)

/-- The payload attached to a response envelope. -/
inductive Payload where
  | noData
  | blogs (l : List Blog)
  | blog (b : Blog)
  | created (id : Nat) (title descr : JsVal) (userId : Nat)
  | userInfo (id : Nat) (username : String)
  | emptyArr
  deriving DecidableEq

/-- Modelled from the spec: the response-emission collaborator
sendResponse(res, statusCode, message, data, error) from helpers/utils.js is
not available; a response envelope records the four data arguments. -/
structure Response where
  statusCode : Nat
  message : String
  data : Payload
  error : Option String
  deriving DecidableEq

/-- One emission through the response-emission collaborator. -/
def sendResponse (statusCode : Nat) (message : String) (data : Payload)
    (error : Option String) : Response :=
  ⟨statusCode, message, data, error⟩

/-- The uniform catch branch of every controller method:
status error.status || INTERNAL_SERVER_ERROR, message error.message ||
Internal Server Error, data [], detail error.response || error. -/
def catchResponse (e : JsError) : Response :=
  sendResponse (jsOrNat e.status STATUS_CODES.INTERNAL_SERVER_ERROR)
    (jsOrStr e.message "Internal Server Error") Payload.emptyArr (some e.detail)

/-- The driver result of a mutating SQL statement. -/
structure MutResult where
  affectedRows : Nat
  insertId : Nat
  deriving DecidableEq

/-- One call into the data-access layer (the five methods UserModel defines)
or into the authentication collaborator, as issued by a controller method. -/
inductive ModelCall where
  | getAllBlogs
  | getBlogById (blogId : Nat)
  | createBlog (title descr : JsVal) (userId : Nat)
  | updateBlog (targetObj : Body) (blogId : Nat)
  | deleteBlog (blogId : Nat)
  | findUserByAttribute (attr : String) (value : Nat)
  deriving DecidableEq

/-- Whether a call issues a mutating SQL statement (INSERT, UPDATE or DELETE). -/
def ModelCall.isMutation : ModelCall → Bool
  | .createBlog _ _ _ => true
  | .updateBlog _ _ => true
  | .deleteBlog _ => true
  | _ => false

/-- The field names a call writes to storage: UserModel.updateBlog writes
every key of the object it receives, creation writes the three blog columns. -/
def ModelCall.writtenFields : ModelCall → List String
  | .updateBlog targetObj _ => targetObj.map (fun p => p.1)
  | .createBlog _ _ _ => ["userId", "title", "description"]
  | _ => []

/-- Modelled from the spec: the database driver (Database.executeQuery from
config/db.config.js) and the authentication collaborator
(AuthModel.findUserByAttribute from models/auth.model.js) are not available;
an oracle fixes, for every call, the rows returned, the driver result of a
mutation, or the error thrown. -/
structure DbOracle where
  getAllBlogs : Except JsError (List Blog)
  getBlogById : Nat → Except JsError (Option Blog)
  createBlog : JsVal → JsVal → Nat → Except JsError MutResult
  updateBlog : Body → Nat → Except JsError MutResult
  deleteBlog : Nat → Except JsError MutResult
  findUserByAttribute : String → Nat → Except JsError (Option User)

/-- The SQL single-quote character, by code point. -/
def sqlQuote : String := String.singleton (Char.ofNat 39)

/-- The query text contributed for one entry of the update object: the
template literal interpolates the key and the value directly into the text,
the value between single quotes. -/
def entryText (kv : String × JsVal) : String :=
  kv.1 ++ " = " ++ sqlQuote ++ kv.2.render ++ sqlQuote

/-- The forEach loop of UserModel.updateBlog over Object.entries(targetObj):
the WHERE clause is appended only together with the entry at the last index;
n stands for Object.keys(targetObj).length. -/
def updateBlogLoop (n : Nat) : Body → Nat → String → String
  | [], _, query => query
  | kv :: rest, index, query =>
    if index = n - 1 then
      updateBlogLoop n rest (index + 1) (query ++ (entryText kv ++ " WHERE id = ?"))
    else
      updateBlogLoop n rest (index + 1) (query ++ (entryText kv ++ ", "))

/-- UserModel.updateBlog: the SQL text built from the UPDATE blogs SET
constant by the forEach loop. -/
def UserModel.updateBlogQuery (targetObj : Body) : String :=
  updateBlogLoop targetObj.length targetObj 0 "UPDATE blogs SET "

/-- UserModel.updateBlog: params = [blogId], the only bound parameter. -/
def UserModel.updateBlogParams (blogId : Nat) : List Nat := [blogId]

/-- UserModel.updateBlog issues exactly one executeQuery call, with this
query text and this bound-parameter list. -/
def UserModel.updateBlogCall (targetObj : Body) (blogId : Nat) : String × List Nat :=
  (UserModel.updateBlogQuery targetObj, UserModel.updateBlogParams blogId)

/-- UserModel.getBlogById: a fully parameterized select. -/
def UserModel.getBlogByIdCall (blogId : Nat) : String × List Nat :=
  ("SELECT * FROM blogs WHERE id = ?", [blogId])

/-- UserModel.deleteBlog: a fully parameterized delete. -/
def UserModel.deleteBlogCall (blogId : Nat) : String × List Nat :=
  ("DELETE FROM blogs WHERE id = ?", [blogId])

/-- The SET clause as the spec describes it: each provided field name and its
value concatenated directly into the query text, entries separated by commas. -/
def interpolatedSetClause : Body → String
  | [] => ""
  | [kv] => entryText kv
  | kv :: rest => entryText kv ++ ", " ++ interpolatedSetClause rest

/-- UserController.getAllBlogs: every controller method returns the list of
responses it emits (one element per sendResponse call on the path taken) and
the list of model calls it issues. -/
def UserController.getAllBlogs (db : DbOracle) : List Response × List ModelCall :=
  match db.getAllBlogs with
  | .ok blogs =>
    ([sendResponse STATUS_CODES.OK "All blogs fetched successfully" (Payload.blogs blogs) none],
     [ModelCall.getAllBlogs])
  | .error e => ([catchResponse e], [ModelCall.getAllBlogs])

/-- UserController.createBlog: requestBody.userId is assigned from
res.locals.user.id before the presence check, so the owning user is always
the caller; on success the payload echoes the generated id, title,
description and userId. -/
def UserController.createBlog (body : Body) (callerId : Nat) (db : DbOracle) :
    List Response × List ModelCall :=
  let requestBody := setField body "userId" (JsVal.num callerId)
  if isAvailable requestBody blogCreationRequiredFields true then
    let title := (getField requestBody "title").getD JsVal.undefinedVal
    let descr := (getField requestBody "description").getD JsVal.undefinedVal
    match db.createBlog title descr callerId with
    | .ok blogCreateResult =>
      ([sendResponse STATUS_CODES.SUCCESSFULLY_CREATED "Blog created successfully"
          (Payload.created blogCreateResult.insertId title descr callerId) none],
       [ModelCall.createBlog title descr callerId])
    | .error e => ([catchResponse e], [ModelCall.createBlog title descr callerId])
  else
    ([sendResponse STATUS_CODES.BAD_REQUEST "Some fields are missing" Payload.noData none], [])

/-- UserController.getBlogById: no ownership check; an absent row is reported
with STATUS_CODES.OK and message text only. -/
def UserController.getBlogById (blogId : Nat) (db : DbOracle) :
    List Response × List ModelCall :=
  match db.getBlogById blogId with
  | .ok none =>
    ([sendResponse STATUS_CODES.OK ("Blog with id " ++ toString blogId ++ " not found")
        Payload.noData none],
     [ModelCall.getBlogById blogId])
  | .ok (some blog) =>
    ([sendResponse STATUS_CODES.OK ("Blog with id " ++ toString blogId ++ " fetched successfully")
        (Payload.blog blog) none],
     [ModelCall.getBlogById blogId])
  | .error e => ([catchResponse e], [ModelCall.getBlogById blogId])

/-- UserController.updateBlog: presence of at least one allow-listed field is
checked, then fetch and ownership check; the whole request body is then
passed to UserModel.updateBlog, and a zero affected-row count is reported as
a BAD_REQUEST could-not-be-updated outcome. -/
def UserController.updateBlog (body : Body) (blogId : Nat) (callerId : Nat) (db : DbOracle) :
    List Response × List ModelCall :=
  if isAvailable body possibleBlogUpdateFields false then
    match db.getBlogById blogId with
    | .error e => ([catchResponse e], [ModelCall.getBlogById blogId])
    | .ok none =>
      ([sendResponse STATUS_CODES.OK ("Blog with id " ++ toString blogId ++ " not found")
          Payload.noData none],
       [ModelCall.getBlogById blogId])
    | .ok (some blogToBeUpdated) =>
      if blogToBeUpdated.userId = callerId then
        match db.updateBlog body blogId with
        | .error e =>
          ([catchResponse e], [ModelCall.getBlogById blogId, ModelCall.updateBlog body blogId])
        | .ok updateBlogResult =>
          if updateBlogResult.affectedRows ≠ 0 then
            ([sendResponse STATUS_CODES.OK
                ("Blog with id " ++ toString blogId ++ " updated successfully") Payload.noData none],
             [ModelCall.getBlogById blogId, ModelCall.updateBlog body blogId])
          else
            ([sendResponse STATUS_CODES.BAD_REQUEST
                ("Blog with id " ++ toString blogId ++ " could not be updated") Payload.noData none],
             [ModelCall.getBlogById blogId, ModelCall.updateBlog body blogId])
      else
        ([sendResponse STATUS_CODES.UNAUTHORIZED "You are not authorized" Payload.noData none],
         [ModelCall.getBlogById blogId])
  else
    ([sendResponse STATUS_CODES.BAD_REQUEST "Fields to be updated does not exist" Payload.noData none],
     [])

/-- UserController.deleteBlog: fetch-then-authorize-then-act, as updateBlog
but with no field check; a zero affected-row count is reported as a
BAD_REQUEST could-not-be-deleted outcome. -/
def UserController.deleteBlog (blogId : Nat) (callerId : Nat) (db : DbOracle) :
    List Response × List ModelCall :=
  match db.getBlogById blogId with
  | .error e => ([catchResponse e], [ModelCall.getBlogById blogId])
  | .ok none =>
    ([sendResponse STATUS_CODES.OK ("Blog with id " ++ toString blogId ++ " not found")
        Payload.noData none],
     [ModelCall.getBlogById blogId])
  | .ok (some blogToBeDeleted) =>
    if blogToBeDeleted.userId = callerId then
      match db.deleteBlog blogId with
      | .error e =>
        ([catchResponse e], [ModelCall.getBlogById blogId, ModelCall.deleteBlog blogId])
      | .ok deleteBlogResult =>
        if deleteBlogResult.affectedRows ≠ 0 then
          ([sendResponse STATUS_CODES.OK
              ("Blog with id " ++ toString blogId ++ " deleted successfully") Payload.noData none],
           [ModelCall.getBlogById blogId, ModelCall.deleteBlog blogId])
        else
          ([sendResponse STATUS_CODES.BAD_REQUEST
              ("Blog with id " ++ toString blogId ++ " could not be deleted") Payload.noData none],
           [ModelCall.getBlogById blogId, ModelCall.deleteBlog blogId])
    else
      ([sendResponse STATUS_CODES.UNAUTHORIZED "You are not authorized" Payload.noData none],
       [ModelCall.getBlogById blogId])

/-- UserController.getUserById: lookup through the authentication
collaborator; absence is reported with STATUS_CODES.OK, a foreign id is
unauthorized, and the success payload carries only id and username. -/
def UserController.getUserById (userId : Nat) (callerId : Nat) (db : DbOracle) :
    List Response × List ModelCall :=
  match db.findUserByAttribute "id" userId with
  | .error e => ([catchResponse e], [ModelCall.findUserByAttribute "id" userId])
  | .ok none =>
    ([sendResponse STATUS_CODES.OK ("User with id " ++ toString userId ++ " does not exist")
        Payload.noData none],
     [ModelCall.findUserByAttribute "id" userId])
  | .ok (some user) =>
    if user.id = callerId then
      ([sendResponse STATUS_CODES.OK ("User with id " ++ toString userId ++ " fetched successfully")
          (Payload.userInfo user.id user.username) none],
       [ModelCall.findUserByAttribute "id" userId])
    else
      ([sendResponse STATUS_CODES.UNAUTHORIZED "You are not authorized" Payload.noData none],
       [ModelCall.findUserByAttribute "id" userId])

/-- The error raised when UserController.updateUser reaches its write step:
UserModel (src/models/user.model.js) defines no updateUser method, so the
property access UserModel.updateUser yields undefined and calling it throws a
TypeError, which the catch branch turns into an error response. -/
def updateUserTypeError : JsError :=
  ⟨none, some "UserModel.updateUser is not a function", none,
   "TypeError: UserModel.updateUser is not a function"⟩

/-- UserController.updateUser: same check-fetch-authorize shape as
updateBlog, but the write step calls UserModel.updateUser, a method the
data-access class does not define, so reaching it throws updateUserTypeError
inside the try block and the catch branch answers. -/
def UserController.updateUser (body : Body) (userId : Nat) (callerId : Nat) (db : DbOracle) :
    List Response × List ModelCall :=
  if isAvailable body userUpdateFields false then
    match db.findUserByAttribute "id" userId with
    | .error e => ([catchResponse e], [ModelCall.findUserByAttribute "id" userId])
    | .ok none =>
      ([sendResponse STATUS_CODES.OK ("User with id " ++ toString userId ++ " does not exist")
          Payload.noData none],
       [ModelCall.findUserByAttribute "id" userId])
    | .ok (some user) =>
      if user.id = callerId then
        ([catchResponse updateUserTypeError], [ModelCall.findUserByAttribute "id" userId])
      else
        ([sendResponse STATUS_CODES.UNAUTHORIZED "You are not authorized" Payload.noData none],
         [ModelCall.findUserByAttribute "id" userId])
  else
    ([sendResponse STATUS_CODES.BAD_REQUEST "Fields to be updated does not exist" Payload.noData none],
     [])

/-- A concrete oracle for witnesses: blog 1 exists and belongs to user 7,
user lookups find a user carrying the looked-up id, every mutation reports
one affected row. -/
def happyDb : DbOracle :=
  ⟨Except.ok [], fun _ => Except.ok (some ⟨1, "T1", "D1", 7⟩),
   fun _ _ _ => Except.ok ⟨1, 5⟩,
   fun _ _ => Except.ok ⟨1, 0⟩,
   fun _ => Except.ok ⟨1, 0⟩,
   fun _ value => Except.ok (some ⟨value, "alice"⟩)⟩

/-- A concrete oracle for witnesses: reads behave as in happyDb but every
mutation reports zero affected rows. -/
def zeroRowsDb : DbOracle :=
  ⟨Except.ok [], fun _ => Except.ok (some ⟨1, "T1", "D1", 7⟩),
   fun _ _ _ => Except.ok ⟨0, 0⟩,
   fun _ _ => Except.ok ⟨0, 0⟩,
   fun _ => Except.ok ⟨0, 0⟩,
   fun _ value => Except.ok (some ⟨value, "alice"⟩)⟩

/-- A concrete oracle for witnesses: no blog and no user is found. -/
def absentDb : DbOracle :=
  ⟨Except.ok [], fun _ => Except.ok none,
   fun _ _ _ => Except.ok ⟨1, 5⟩,
   fun _ _ => Except.ok ⟨1, 0⟩,
   fun _ => Except.ok ⟨1, 0⟩,
   fun _ _ => Except.ok none⟩

/-- A concrete update body carrying one allow-listed field (title) and one
field outside the allow-list (isAdmin). -/
def mixedFieldsBody : Body := [("title", JsVal.str "T2"), ("isAdmin", JsVal.str "true")]

theorem getField_cons (p : String × JsVal) (rest : Body) (key : String) :
    getField (p :: rest) key = if p.1 == key then some p.2 else getField rest key := by
  cases h : (p.1 == key) <;> simp [getField, List.find?_cons, h]

theorem getField_map_assign (k key : String) (v : JsVal) (h : key ≠ k) (body : Body) :
    getField (body.map (fun p => if p.1 == k then (k, v) else p)) key = getField body key := by
  induction body with
  | nil => rfl
  | cons p rest ih =>
    rw [List.map_cons, getField_cons, getField_cons, ih]
    by_cases hp : p.1 = k
    · simp [hp, beq_iff_eq, Ne.symm h]
    · simp [beq_iff_eq, hp]

theorem getField_append_single (body : Body) (k key : String) (v : JsVal) (h : key ≠ k) :
    getField (body ++ [(k, v)]) key = getField body key := by
  induction body with
  | nil =>
    have hk : (k == key) = false := beq_eq_false_iff_ne.mpr (Ne.symm h)
    simp [getField, List.find?, hk]
  | cons p rest ih => rw [List.cons_append, getField_cons, getField_cons, ih]

theorem getField_setField_ne (body : Body) (k key : String) (v : JsVal) (h : key ≠ k) :
    getField (setField body k v) key = getField body key := by
  unfold setField
  split
  · exact getField_map_assign k key v h body
  · exact getField_append_single body k key v h

theorem updateBlogLoop_eq (l : Body) : ∀ (n index : Nat) (q : String),
    l ≠ [] → n = index + l.length →
    updateBlogLoop n l index q = q ++ (interpolatedSetClause l ++ " WHERE id = ?") := by
  induction l with
  | nil => intro n index q hne _; exact absurd rfl hne
  | cons kv rest ih =>
    intro n index q _ hn
    cases rest with
    | nil =>
      have hidx : index = n - 1 := by simp [hn]
      unfold updateBlogLoop
      rw [if_pos hidx]
      unfold updateBlogLoop
      simp [interpolatedSetClause, String.append_assoc]
    | cons kv2 rest2 =>
      have hidx : ¬ (index = n - 1) := by
        simp only [hn, List.length_cons]
        omega
      unfold updateBlogLoop
      rw [if_neg hidx,
        ih n (index + 1) (q ++ (entryText kv ++ ", ")) (by simp) (by simp [hn]; omega)]
      simp [interpolatedSetClause, String.append_assoc]

/-- C9: called on an empty field object, the data-access blog-update never
appends the WHERE id clause (the clause is only attached while the last
field entry is emitted), so the issued query text is exactly the UPDATE
blogs SET constant, with no column assignments and no id predicate, while
the bound-parameter list still carries the blog id. -/
theorem c9_empty_update_object_query (blogId : Nat) :
    UserModel.updateBlogCall [] blogId = ("UPDATE blogs SET ", [blogId]) := rfl

/-- C8: for every non-empty field set, the SQL text of the data-access
blog-update is the UPDATE blogs SET constant followed by the direct
interpolation of each field name and value into the SET clause, the id-match
predicate closing the text, and the bound-parameter list is exactly
[blogId]. -/
theorem c8_update_sql_concatenation (targetObj : Body) (blogId : Nat)
    (h : targetObj ≠ []) :
    UserModel.updateBlogCall targetObj blogId
      = ("UPDATE blogs SET " ++ (interpolatedSetClause targetObj ++ " WHERE id = ?"),
         [blogId]) := by
  unfold UserModel.updateBlogCall UserModel.updateBlogQuery UserModel.updateBlogParams
  rw [updateBlogLoop_eq targetObj targetObj.length 0 "UPDATE blogs SET " h (by simp)]

/-- C8 witness: the theorem applied to a concrete one-entry field set. -/
theorem c8_update_sql_concatenation_witness :
    ([("title", JsVal.str "T2")] : Body) ≠ []
    ∧ UserModel.updateBlogCall [("title", JsVal.str "T2")] 4
        = ("UPDATE blogs SET "
             ++ (interpolatedSetClause [("title", JsVal.str "T2")] ++ " WHERE id = ?"),
           [4]) :=
  ⟨by decide, c8_update_sql_concatenation [("title", JsVal.str "T2")] 4 (by decide)⟩

/-- C2: the claim fails on the code. UserModel (src/models/user.model.js)
defines no updateUser method, so an update-user request that passes the
presence check, finds the target user through the authentication
collaborator and has the path id equal to the caller id is answered by the
catch branch with the TypeError internal-error response; the write is never
applied through a data-access user-update method and success is never
reported, whatever affected-row count the database would have returned. -/
theorem c2_update_user_missing_method :
    UserController.updateUser [("username", JsVal.str "bob")] 7 7 happyDb
      = ([catchResponse updateUserTypeError], [ModelCall.findUserByAttribute "id" 7])
    ∧ (catchResponse updateUserTypeError).statusCode = STATUS_CODES.INTERNAL_SERVER_ERROR
    ∧ ∀ c ∈ (UserController.updateUser [("username", JsVal.str "bob")] 7 7 happyDb).2,
        c.isMutation = false :=
  ⟨by decide, rfl, by decide⟩

/-- C1 counterexample: run by the owner with a body holding the allow-listed
title plus the foreign field isAdmin, update-blog issues a storage write
whose field set contains isAdmin, a field outside the allow-list; so it is
false that such a request never writes a field outside the allow-list to
storage. -/
theorem c1_counterexample :
    ¬ (∀ (body : Body) (blogId callerId : Nat) (db : DbOracle),
        (∃ f ∈ possibleBlogUpdateFields, (getField body f).isSome = true) →
        (∃ f, (getField body f).isSome = true ∧ f ∉ possibleBlogUpdateFields) →
        ∀ c ∈ (UserController.updateBlog body blogId callerId db).2,
          ∀ f ∈ c.writtenFields, f ∈ possibleBlogUpdateFields) := by
  intro hclaim
  have hmem := hclaim mixedFieldsBody 1 7 happyDb
    ⟨"title", by decide, by decide⟩ ⟨"isAdmin", by decide, by decide⟩
    (ModelCall.updateBlog mixedFieldsBody 1) (by decide) "isAdmin" (by decide)
  exact absurd hmem (by decide)

/-- C1 amended: for update-blog, the storage write receives the entire
request body, so every mutating call the operation issues is exactly
UserModel.updateBlog applied to the whole body, fields outside the
allow-list included (the allow-list only gates whether the update proceeds);
for update-user, no mutating storage call ever occurs, the data-access layer
having no user-update method, so no field at all is persisted. -/
theorem c1_amended_frame :
    (∀ (body : Body) (blogId callerId : Nat) (db : DbOracle) (c : ModelCall),
        c ∈ (UserController.updateBlog body blogId callerId db).2 →
        c.isMutation = true → c = ModelCall.updateBlog body blogId)
    ∧ (∀ (body : Body) (userId callerId : Nat) (db : DbOracle) (c : ModelCall),
        c ∈ (UserController.updateUser body userId callerId db).2 →
        c.isMutation = false) := by
  constructor
  · intro body blogId callerId db c hc hmut
    by_cases hf : isAvailable body possibleBlogUpdateFields false = true
    · rcases hdb : db.getBlogById blogId with e | ob
      · simp [UserController.updateBlog, hf, hdb] at hc
        simp [hc, ModelCall.isMutation] at hmut
      · cases ob with
        | none =>
          simp [UserController.updateBlog, hf, hdb] at hc
          simp [hc, ModelCall.isMutation] at hmut
        | some blog =>
          by_cases hown : blog.userId = callerId
          · rcases hupd : db.updateBlog body blogId with e | r
            · simp [UserController.updateBlog, hf, hdb, hown, hupd] at hc
              rcases hc with hc | hc
              · simp [hc, ModelCall.isMutation] at hmut
              · exact hc
            · by_cases haff : r.affectedRows = 0
              · simp [UserController.updateBlog, hf, hdb, hown, hupd, haff] at hc
                rcases hc with hc | hc
                · simp [hc, ModelCall.isMutation] at hmut
                · exact hc
              · simp [UserController.updateBlog, hf, hdb, hown, hupd, haff] at hc
                rcases hc with hc | hc
                · simp [hc, ModelCall.isMutation] at hmut
                · exact hc
          · simp [UserController.updateBlog, hf, hdb, hown] at hc
            simp [hc, ModelCall.isMutation] at hmut
    · simp [UserController.updateBlog, hf] at hc
  · intro body userId callerId db c hc
    by_cases hf : isAvailable body userUpdateFields false = true
    · rcases hdb : db.findUserByAttribute "id" userId with e | ou
      · simp [UserController.updateUser, hf, hdb] at hc
        simp [hc, ModelCall.isMutation]
      · cases ou with
        | none =>
          simp [UserController.updateUser, hf, hdb] at hc
          simp [hc, ModelCall.isMutation]
        | some user =>
          by_cases hid : user.id = callerId
          · simp [UserController.updateUser, hf, hdb, hid] at hc
            simp [hc, ModelCall.isMutation]
          · simp [UserController.updateUser, hf, hdb, hid] at hc
            simp [hc, ModelCall.isMutation]
    · simp [UserController.updateUser, hf] at hc

/-- C1 amended witness: on the concrete counterexample run, the theorem
identifies the mutating call as the full-body update. -/
theorem c1_amended_frame_witness :
    ModelCall.updateBlog mixedFieldsBody 1 ∈
      (UserController.updateBlog mixedFieldsBody 1 7 happyDb).2
    ∧ ModelCall.updateBlog mixedFieldsBody 1 = ModelCall.updateBlog mixedFieldsBody 1 :=
  ⟨by decide, c1_amended_frame.1 mixedFieldsBody 1 7 happyDb
    (ModelCall.updateBlog mixedFieldsBody 1) (by decide) (by decide)⟩

/-- C3: an update-blog request whose fetched blog exists but is owned by a
user other than the caller is answered with the unauthorized outcome, and no
mutating storage call is issued, so the stored blog is unchanged. -/
theorem c3_unauthorized_no_mutation (body : Body) (blogId callerId : Nat)
    (db : DbOracle) (blog : Blog)
    (hfields : isAvailable body possibleBlogUpdateFields false = true)
    (hfetch : db.getBlogById blogId = Except.ok (some blog))
    (hown : blog.userId ≠ callerId) :
    UserController.updateBlog body blogId callerId db
      = ([sendResponse STATUS_CODES.UNAUTHORIZED "You are not authorized" Payload.noData none],
         [ModelCall.getBlogById blogId])
    ∧ ∀ c ∈ (UserController.updateBlog body blogId callerId db).2, c.isMutation = false := by
  have heq : UserController.updateBlog body blogId callerId db
      = ([sendResponse STATUS_CODES.UNAUTHORIZED "You are not authorized" Payload.noData none],
         [ModelCall.getBlogById blogId]) := by
    simp [UserController.updateBlog, hfields, hfetch, hown]
  refine ⟨heq, ?_⟩
  rw [heq]
  intro c hc
  simp at hc
  simp [hc, ModelCall.isMutation]

/-- C3 witness: user 8 attempts to update blog 1, which belongs to user 7. -/
theorem c3_unauthorized_no_mutation_witness :
    (isAvailable mixedFieldsBody possibleBlogUpdateFields false = true
      ∧ happyDb.getBlogById 1 = Except.ok (some ⟨1, "T1", "D1", 7⟩)
      ∧ (Blog.mk 1 "T1" "D1" 7).userId ≠ 8)
    ∧ UserController.updateBlog mixedFieldsBody 1 8 happyDb
        = ([sendResponse STATUS_CODES.UNAUTHORIZED "You are not authorized" Payload.noData none],
           [ModelCall.getBlogById 1]) :=
  ⟨⟨by decide, rfl, by decide⟩,
   (c3_unauthorized_no_mutation mixedFieldsBody 1 8 happyDb ⟨1, "T1", "D1", 7⟩
     (by decide) rfl (by decide)).1⟩

/-- C4: a create-blog request carrying title and description stores and
returns the caller identity as the owning user, whatever userId the body
supplied, and the success payload is exactly the generated insert id, the
submitted title and description, and that userId. -/
theorem c4_create_blog_owner_forced (body : Body) (callerId : Nat) (db : DbOracle)
    (t d : JsVal) (r : MutResult)
    (ht : getField body "title" = some t)
    (hd : getField body "description" = some d)
    (hins : db.createBlog t d callerId = Except.ok r) :
    UserController.createBlog body callerId db
      = ([sendResponse STATUS_CODES.SUCCESSFULLY_CREATED "Blog created successfully"
            (Payload.created r.insertId t d callerId) none],
         [ModelCall.createBlog t d callerId]) := by
  have ht2 : getField (setField body "userId" (JsVal.num callerId)) "title" = some t := by
    rw [getField_setField_ne body "userId" "title" _ (by decide)]; exact ht
  have hd2 : getField (setField body "userId" (JsVal.num callerId)) "description" = some d := by
    rw [getField_setField_ne body "userId" "description" _ (by decide)]; exact hd
  have hav : isAvailable (setField body "userId" (JsVal.num callerId))
      blogCreationRequiredFields true = true := by
    simp [isAvailable, blogCreationRequiredFields, ht2, hd2]
  simp [UserController.createBlog, hav, ht2, hd2, hins]

/-- A concrete creation body that also tries to smuggle in userId 99. -/
def creationBody : Body :=
  [("title", JsVal.str "T"), ("description", JsVal.str "D"), ("userId", JsVal.num 99)]

/-- C4 witness: caller 7 creates a blog from a body claiming userId 99; the
stored and returned owner is 7 and the payload carries the insert id 5. -/
theorem c4_create_blog_owner_forced_witness :
    (getField creationBody "title" = some (JsVal.str "T")
      ∧ getField creationBody "description" = some (JsVal.str "D")
      ∧ happyDb.createBlog (JsVal.str "T") (JsVal.str "D") 7 = Except.ok ⟨1, 5⟩)
    ∧ UserController.createBlog creationBody 7 happyDb
        = ([sendResponse STATUS_CODES.SUCCESSFULLY_CREATED "Blog created successfully"
              (Payload.created 5 (JsVal.str "T") (JsVal.str "D") 7) none],
           [ModelCall.createBlog (JsVal.str "T") (JsVal.str "D") 7]) :=
  ⟨⟨rfl, rfl, rfl⟩,
   c4_create_blog_owner_forced creationBody 7 happyDb (JsVal.str "T") (JsVal.str "D")
     ⟨1, 5⟩ rfl rfl rfl⟩

/-- C5: a create-blog request missing title or description is answered with
the bad-request outcome and no storage call at all is made. -/
theorem c5_create_blog_missing_field (body : Body) (callerId : Nat) (db : DbOracle)
    (hmiss : getField body "title" = none ∨ getField body "description" = none) :
    UserController.createBlog body callerId db
      = ([sendResponse STATUS_CODES.BAD_REQUEST "Some fields are missing" Payload.noData none],
         []) := by
  have hav : isAvailable (setField body "userId" (JsVal.num callerId))
      blogCreationRequiredFields true = false := by
    rcases hmiss with hm | hm
    · have h2 : getField (setField body "userId" (JsVal.num callerId)) "title" = none := by
        rw [getField_setField_ne body "userId" "title" _ (by decide)]; exact hm
      simp [isAvailable, blogCreationRequiredFields, h2]
    · have h2 : getField (setField body "userId" (JsVal.num callerId)) "description" = none := by
        rw [getField_setField_ne body "userId" "description" _ (by decide)]; exact hm
      simp [isAvailable, blogCreationRequiredFields, h2]
  simp [UserController.createBlog, hav]

/-- A concrete creation body with no description. -/
def missingFieldBody : Body := [("title", JsVal.str "T")]

/-- C5 witness: a body with only a title is rejected before any storage call. -/
theorem c5_create_blog_missing_field_witness :
    (getField missingFieldBody "title" = none
      ∨ getField missingFieldBody "description" = none)
    ∧ UserController.createBlog missingFieldBody 7 happyDb
        = ([sendResponse STATUS_CODES.BAD_REQUEST "Some fields are missing" Payload.noData none],
           []) :=
  ⟨Or.inr rfl, c5_create_blog_missing_field missingFieldBody 7 happyDb (Or.inr rfl)⟩

/-- C6: when the existence and ownership checks pass and the mutation
reports zero affected rows, update-blog and delete-blog answer with the
could-not-be-updated or could-not-be-deleted BAD_REQUEST outcome, an outcome
different from the success outcome and from every storage-error outcome
(the latter always carries an error detail). -/
theorem c6_zero_affected_rows_distinct :
    (∀ (body : Body) (blogId callerId : Nat) (db : DbOracle) (blog : Blog) (r : MutResult),
        isAvailable body possibleBlogUpdateFields false = true →
        db.getBlogById blogId = Except.ok (some blog) →
        blog.userId = callerId →
        db.updateBlog body blogId = Except.ok r →
        r.affectedRows = 0 →
        (UserController.updateBlog body blogId callerId db).1
            = [sendResponse STATUS_CODES.BAD_REQUEST
                ("Blog with id " ++ toString blogId ++ " could not be updated") Payload.noData none]
          ∧ sendResponse STATUS_CODES.BAD_REQUEST
                ("Blog with id " ++ toString blogId ++ " could not be updated") Payload.noData none
              ≠ sendResponse STATUS_CODES.OK
                ("Blog with id " ++ toString blogId ++ " updated successfully") Payload.noData none
          ∧ ∀ e : JsError,
              sendResponse STATUS_CODES.BAD_REQUEST
                  ("Blog with id " ++ toString blogId ++ " could not be updated") Payload.noData none
                ≠ catchResponse e)
    ∧ (∀ (blogId callerId : Nat) (db : DbOracle) (blog : Blog) (r : MutResult),
        db.getBlogById blogId = Except.ok (some blog) →
        blog.userId = callerId →
        db.deleteBlog blogId = Except.ok r →
        r.affectedRows = 0 →
        (UserController.deleteBlog blogId callerId db).1
            = [sendResponse STATUS_CODES.BAD_REQUEST
                ("Blog with id " ++ toString blogId ++ " could not be deleted") Payload.noData none]
          ∧ sendResponse STATUS_CODES.BAD_REQUEST
                ("Blog with id " ++ toString blogId ++ " could not be deleted") Payload.noData none
              ≠ sendResponse STATUS_CODES.OK
                ("Blog with id " ++ toString blogId ++ " deleted successfully") Payload.noData none
          ∧ ∀ e : JsError,
              sendResponse STATUS_CODES.BAD_REQUEST
                  ("Blog with id " ++ toString blogId ++ " could not be deleted") Payload.noData none
                ≠ catchResponse e) := by
  constructor
  · intro body blogId callerId db blog r hf hdb hown hupd haff
    refine ⟨?_, ?_, ?_⟩
    · simp [UserController.updateBlog, hf, hdb, hown, hupd, haff]
    · intro h
      have h2 := congrArg Response.statusCode h
      simp [sendResponse, STATUS_CODES.BAD_REQUEST, STATUS_CODES.OK] at h2
    · intro e h
      have h2 := congrArg Response.error h
      simp [sendResponse, catchResponse] at h2
  · intro blogId callerId db blog r hdb hown hdel haff
    refine ⟨?_, ?_, ?_⟩
    · simp [UserController.deleteBlog, hdb, hown, hdel, haff]
    · intro h
      have h2 := congrArg Response.statusCode h
      simp [sendResponse, STATUS_CODES.BAD_REQUEST, STATUS_CODES.OK] at h2
    · intro e h
      have h2 := congrArg Response.error h
      simp [sendResponse, catchResponse] at h2

/-- C6 witness: owner 7 updates blog 1 under an oracle reporting zero
affected rows, and receives the could-not-be-updated outcome. -/
theorem c6_zero_affected_rows_distinct_witness :
    (isAvailable mixedFieldsBody possibleBlogUpdateFields false = true
      ∧ zeroRowsDb.getBlogById 1 = Except.ok (some ⟨1, "T1", "D1", 7⟩)
      ∧ (Blog.mk 1 "T1" "D1" 7).userId = 7
      ∧ zeroRowsDb.updateBlog mixedFieldsBody 1 = Except.ok ⟨0, 0⟩
      ∧ (MutResult.mk 0 0).affectedRows = 0)
    ∧ (UserController.updateBlog mixedFieldsBody 1 7 zeroRowsDb).1
        = [sendResponse STATUS_CODES.BAD_REQUEST
            ("Blog with id " ++ toString 1 ++ " could not be updated") Payload.noData none] :=
  ⟨⟨by decide, rfl, rfl, rfl, rfl⟩,
   (c6_zero_affected_rows_distinct.1 mixedFieldsBody 1 7 zeroRowsDb ⟨1, "T1", "D1", 7⟩
     ⟨0, 0⟩ (by decide) rfl rfl rfl rfl).1⟩

/-- C7: get-blog-by-id and get-user-by-id report an absent record with the
same STATUS_CODES.OK a successful fetch uses, with no data and no error
payload: the absence shows only in the message text. -/
theorem c7_not_found_success_status :
    (∀ (blogId : Nat) (db : DbOracle), db.getBlogById blogId = Except.ok none →
        (UserController.getBlogById blogId db).1
          = [sendResponse STATUS_CODES.OK ("Blog with id " ++ toString blogId ++ " not found")
              Payload.noData none])
    ∧ (∀ (blogId : Nat) (db : DbOracle) (b : Blog),
        db.getBlogById blogId = Except.ok (some b) →
        (UserController.getBlogById blogId db).1
          = [sendResponse STATUS_CODES.OK
              ("Blog with id " ++ toString blogId ++ " fetched successfully") (Payload.blog b) none])
    ∧ (∀ (userId callerId : Nat) (db : DbOracle),
        db.findUserByAttribute "id" userId = Except.ok none →
        (UserController.getUserById userId callerId db).1
          = [sendResponse STATUS_CODES.OK ("User with id " ++ toString userId ++ " does not exist")
              Payload.noData none])
    ∧ (∀ (userId : Nat) (db : DbOracle) (u : User),
        db.findUserByAttribute "id" userId = Except.ok (some u) →
        (UserController.getUserById userId u.id db).1
          = [sendResponse STATUS_CODES.OK
              ("User with id " ++ toString userId ++ " fetched successfully")
              (Payload.userInfo u.id u.username) none]) := by
  refine ⟨?_, ?_, ?_, ?_⟩
  · intro blogId db h
    simp [UserController.getBlogById, h]
  · intro blogId db b h
    simp [UserController.getBlogById, h]
  · intro userId callerId db h
    simp [UserController.getUserById, h]
  · intro userId db u h
    simp [UserController.getUserById, h]

/-- C7 witness: fetching the absent blog 2 yields the OK-status not-found
response with no error payload. -/
theorem c7_not_found_success_status_witness :
    absentDb.getBlogById 2 = Except.ok none
    ∧ (UserController.getBlogById 2 absentDb).1
        = [sendResponse STATUS_CODES.OK ("Blog with id " ++ toString 2 ++ " not found")
            Payload.noData none] :=
  ⟨rfl, c7_not_found_success_status.1 2 absentDb rfl⟩

/-- C10: every controller operation, for every input and every collaborator
behaviour the oracle can exhibit, emits exactly one response. -/
theorem c10_single_response (db : DbOracle) (body : Body) (blogId userId callerId : Nat) :
    (UserController.getAllBlogs db).1.length = 1
    ∧ (UserController.createBlog body callerId db).1.length = 1
    ∧ (UserController.getBlogById blogId db).1.length = 1
    ∧ (UserController.updateBlog body blogId callerId db).1.length = 1
    ∧ (UserController.deleteBlog blogId callerId db).1.length = 1
    ∧ (UserController.getUserById userId callerId db).1.length = 1
    ∧ (UserController.updateUser body userId callerId db).1.length = 1 := by
  refine ⟨?_, ?_, ?_, ?_, ?_, ?_, ?_⟩
  · dsimp only [UserController.getAllBlogs]
    (repeat' split) <;> rfl
  · dsimp only [UserController.createBlog]
    (repeat' split) <;> rfl
  · dsimp only [UserController.getBlogById]
    (repeat' split) <;> rfl
  · dsimp only [UserController.updateBlog]
    (repeat' split) <;> rfl
  · dsimp only [UserController.deleteBlog]
    (repeat' split) <;> rfl
  · dsimp only [UserController.getUserById]
    (repeat' split) <;> rfl
  · dsimp only [UserController.updateUser]
    (repeat' split) <;> rfl
